import Mathlib

/-!
Shallow embedding of the websocket live-streaming driver
(`src/driver/websocket.js`, main revision, together with the older
revision kept as `unnamed/part_000`).

The driver is callback-driven JS; we embed it as an explicit state
machine: the mutable closure variables (`socket`, `buf`, `clock`,
`reconnectAttempt`, `successfulConnectionTimeout`, `stop`) become a
`DriverState` record, and every externally observable action (logger
calls, `setState`, `reset`, buffer pushes, closing the socket,
scheduling timers) becomes an `Effect` value emitted by a `step`
function over `DriverInput`s (socket open/message/close events, timer
firings, the public `stop()` call).

JS numbers appearing in decoded frames are modelled by `JsNum`
(finite rationals plus infinities and NaN, matching IEEE binary32
decoding); generic JS values passed through JSON handling are
modelled by `JsVal`.  Text message payloads are modelled after
`JSON.parse` (the parser is a platform builtin, not repository code).
-/

namespace WsDriver

/-- A JS number as produced by `DataView.getFloat32` / JSON numerals:
a finite rational, a signed infinity, or NaN. -/
inductive JsNum where
  | fin (q : ℚ)
  | inf (neg : Bool)
  | nan
  deriving DecidableEq, Repr

/-- A JS value as relevant to the driver: `undefined`, `null`,
booleans, numbers, strings, arrays and (string-keyed) objects. -/
inductive JsVal where
  | undefV
  | null
  | bool (b : Bool)
  | num (n : JsNum)
  | str (s : String)
  | arr (elems : List JsVal)
  | obj (fields : List (String × JsVal))

/-- JS property access `e.k` on an object: the last binding of the key
wins (as after `JSON.parse`); a missing key reads as `undefined`, and
property access on any non-object value also reads as `undefined`
(the `null` receiver, which throws in JS, is handled at the call
site). -/
def jsGet (v : JsVal) (key : String) : JsVal :=
  match v with
  | .obj fields => fields.foldl (fun acc kv => if kv.1 = key then kv.2 else acc) .undefV
  | _ => .undefV

/-- `a ?? b`: JS nullish coalescing. -/
def jsCoalesce (a b : JsVal) : JsVal :=
  match a with
  | .undefV => b
  | .null => b
  | v => v

/-- `typeof v === 'number'`. -/
def isNumber (v : JsVal) : Bool :=
  match v with
  | .num _ => true
  | _ => false

/-- `v !== undefined`. -/
def isDefined (v : JsVal) : Bool :=
  match v with
  | .undefV => false
  | _ => true

/-! ## Byte-level readers (`DataView`, `Uint8Array`)

Frames are byte lists; each reader returns `none` exactly when the
corresponding JS construct throws (`DataView` reads and
`new Uint8Array(buffer, off, len)` are bounds-checked). -/

/-- `DataView.getUint8(i)`: the byte at `i`, throwing out of bounds. -/
def getUint8 (bytes : List Nat) (i : Nat) : Option Nat :=
  bytes[i]?

/-- `DataView.getUint16(i, true)`: little-endian 16-bit read. -/
def getUint16LE (bytes : List Nat) (i : Nat) : Option Nat := do
  let b0 ← bytes[i]?
  let b1 ← bytes[i + 1]?
  pure (b0 + 256 * b1)

/-- `DataView.getUint32(i, true)`: little-endian 32-bit read. -/
def getUint32LE (bytes : List Nat) (i : Nat) : Option Nat := do
  let b0 ← bytes[i]?
  let b1 ← bytes[i + 1]?
  let b2 ← bytes[i + 2]?
  let b3 ← bytes[i + 3]?
  pure (b0 + 256 * b1 + 65536 * b2 + 16777216 * b3)

/-- Interpret a 32-bit pattern as an IEEE-754 binary32 value. -/
def f32FromBits (bits : Nat) : JsNum :=
  let sign : Bool := bits / 2 ^ 31 % 2 = 1
  let expo : Nat := bits / 2 ^ 23 % 256
  let frac : Nat := bits % 2 ^ 23
  if expo = 255 then
    if frac = 0 then .inf sign else .nan
  else
    let mag : ℚ :=
      if expo = 0 then (frac : ℚ) * (2 : ℚ) ^ (-(149 : ℤ))
      else ((2 ^ 23 + frac : ℕ) : ℚ) * (2 : ℚ) ^ ((expo : ℤ) - 150)
    .fin (if sign then -mag else mag)

/-- `DataView.getFloat32(i, true)`: little-endian binary32 read. -/
def getFloat32LE (bytes : List Nat) (i : Nat) : Option JsNum := do
  let bits ← getUint32LE bytes i
  pure (f32FromBits bits)

/-- `new Uint8Array(buffer, off, len)`: a view of exactly `len` bytes
at offset `off`, throwing (`none`) when the view would overrun the
buffer. -/
def viewExact (bytes : List Nat) (off len : Nat) : Option (List Nat) :=
  if off + len ≤ bytes.length then some ((bytes.drop off).take len) else none

/-- `array.slice(a, b)`: clamps to the available bytes, never throws. -/
def sliceClamped (bytes : List Nat) (a b : Nat) : List Nat :=
  (bytes.drop a).take (b - a)

/-! ## UTF-8 decoding (`TextDecoder`)

Model of the platform `TextDecoder` with default options: WHATWG
UTF-8 decoding, emitting U+FFFD for each error and resuming at the
offending byte. -/

/-- The replacement character U+FFFD. -/
def replChar : Char := Char.ofNat 0xFFFD

/-- Is `b` a UTF-8 continuation byte? -/
def isCont (b : Nat) : Bool := 0x80 ≤ b && b ≤ 0xBF

/-- WHATWG UTF-8 decode of a byte list to characters.  On an invalid
byte the decoder emits U+FFFD and resumes at the offending byte (the
tail the recursive call receives).  The decode consumes at least one
byte per step, so a fuel of the list's length suffices; the fuel only
makes the recursion structural. -/
def utf8DecodeLoop : Nat → List Nat → List Char
  | _, [] => []
  | 0, _ => []
  | fuel + 1, b :: rest =>
    if b ≤ 0x7F then Char.ofNat b :: utf8DecodeLoop fuel rest
    else if 0xC2 ≤ b && b ≤ 0xDF then
      match rest with
      | b2 :: rest2 =>
        if isCont b2 then
          Char.ofNat ((b - 0xC0) * 64 + (b2 - 0x80)) :: utf8DecodeLoop fuel rest2
        else replChar :: utf8DecodeLoop fuel rest
      | [] => [replChar]
    else if 0xE0 ≤ b && b ≤ 0xEF then
      match rest with
      | b2 :: rest2 =>
        let lo2 := if b = 0xE0 then 0xA0 else 0x80
        let hi2 := if b = 0xED then 0x9F else 0xBF
        if lo2 ≤ b2 && b2 ≤ hi2 then
          match rest2 with
          | b3 :: rest3 =>
            if isCont b3 then
              Char.ofNat ((b - 0xE0) * 4096 + (b2 - 0x80) * 64 + (b3 - 0x80)) ::
                utf8DecodeLoop fuel rest3
            else replChar :: utf8DecodeLoop fuel rest2
          | [] => [replChar]
        else replChar :: utf8DecodeLoop fuel rest
      | [] => [replChar]
    else if 0xF0 ≤ b && b ≤ 0xF4 then
      match rest with
      | b2 :: rest2 =>
        let lo2 := if b = 0xF0 then 0x90 else 0x80
        let hi2 := if b = 0xF4 then 0x8F else 0xBF
        if lo2 ≤ b2 && b2 ≤ hi2 then
          match rest2 with
          | b3 :: rest3 =>
            if isCont b3 then
              match rest3 with
              | b4 :: rest4 =>
                if isCont b4 then
                  Char.ofNat
                    ((b - 0xF0) * 262144 + (b2 - 0x80) * 4096 + (b3 - 0x80) * 64 + (b4 - 0x80)) ::
                    utf8DecodeLoop fuel rest4
                else replChar :: utf8DecodeLoop fuel rest3
              | [] => [replChar]
            else replChar :: utf8DecodeLoop fuel rest2
          | [] => [replChar]
        else replChar :: utf8DecodeLoop fuel rest
      | [] => [replChar]
    else replChar :: utf8DecodeLoop fuel rest

/-- WHATWG UTF-8 decode of a byte list to characters. -/
def utf8DecodeChars (bytes : List Nat) : List Char :=
  utf8DecodeLoop bytes.length bytes

/-- `utfDecoder.decode(bytes)`. -/
def utf8Decode (bytes : List Nat) : String :=
  String.mk (utf8DecodeChars bytes)

/-! ## Geometry sniffing on raw text (`sizeFromResizeSeq`,
`sizeFromScriptStartMessage`)

The two JS regexes are embedded as explicit scanners with JS
semantics: leftmost match, greedy quantifiers. -/

/-- Is `c` an ASCII digit (regex `\d`)? -/
def isDigitChar (c : Char) : Bool := '0' ≤ c && c ≤ '9'

/-- Maximal digit prefix and the remainder (a greedy `\d+` / `\d{1,3}`
attempt; a failing required literal after a too-long run cannot be
rescued by backtracking into the run, since the next character is then
itself a digit). -/
def takeDigits (l : List Char) : List Char × List Char :=
  (l.takeWhile isDigitChar, l.dropWhile isDigitChar)

/-- `parseInt(digits, 10)`. -/
def digitsToNat (ds : List Char) : Nat :=
  ds.foldl (fun a c => 10 * a + (c.toNat - 48)) 0

/-- Characters matched by regex `.` (anything but a line terminator). -/
def isRegexDot (c : Char) : Bool :=
  !(c = '\n' || c = '\r' || c = ' ' || c = ' ')

/-- Leftmost-match scan: try the matcher at every start position, in
order. -/
def scanFirst {α : Type} (f : List Char → Option α) : List Char → Option α
  | [] => f []
  | c :: rest =>
    match f (c :: rest) with
    | some r => some r
    | none => scanFirst f rest

/-- Match `\x1b\[8;(\d+);(\d+)t` at the head; on success return
`(cols, rows)` = (second group, first group), as the caller does. -/
def resizeMatchAt (l : List Char) : Option (Nat × Nat) :=
  match l with
  | '\x1b' :: '[' :: '8' :: ';' :: rest =>
    let (d1, r1) := takeDigits rest
    if d1.isEmpty then none
    else
      match r1 with
      | ';' :: r2 =>
        let (d2, r3) := takeDigits r2
        if d2.isEmpty then none
        else
          match r3 with
          | 't' :: _ => some (digitsToNat d2, digitsToNat d1)
          | _ => none
      | _ => none
  | _ => none

/-- `text.match(/\x1b\[8;(\d+);(\d+)t/)`, returning
`[parseInt(match[2]), parseInt(match[1])]` = `(cols, rows)`. -/
def sizeFromResizeSeq (text : List Char) : Option (Nat × Nat) :=
  scanFirst resizeMatchAt text

/-- Match `COLUMNS="(\d{1,3})" LINES="(\d{1,3})"` at the head,
returning the two groups and the remainder. -/
def colsLinesAt (l : List Char) : Option (Nat × Nat × List Char) :=
  match l with
  | 'C' :: 'O' :: 'L' :: 'U' :: 'M' :: 'N' :: 'S' :: '=' :: '"' :: rest =>
    let (d1, r1) := takeDigits rest
    if d1.length = 0 || 3 < d1.length then none
    else
      match r1 with
      | '"' :: ' ' :: 'L' :: 'I' :: 'N' :: 'E' :: 'S' :: '=' :: '"' :: r2 =>
        let (d2, r3) := takeDigits r2
        if d2.length = 0 || 3 < d2.length then none
        else
          match r3 with
          | '"' :: rest2 => some (digitsToNat d1, digitsToNat d2, rest2)
          | _ => none
      | _ => none
  | _ => none

/-- After the groups, the regex still requires `.*\]`: some run of
non-terminator characters followed by `]`. -/
def scriptTailOk (after : List Char) : Bool :=
  (after.takeWhile isRegexDot).contains ']'

/-- Try the body of the script-start regex with the leading `.*`
consuming exactly `j` characters. -/
def scriptTryAt (rest : List Char) (j : Nat) : Option (Nat × Nat) :=
  match colsLinesAt (rest.drop j) with
  | some (c, r, after) => if scriptTailOk after then some (c, r) else none
  | none => none

/-- Greedy `.*`: try the largest feasible skip first, backing off one
character at a time. -/
def scriptScanBack (rest : List Char) : Nat → Option (Nat × Nat)
  | 0 => scriptTryAt rest 0
  | j + 1 =>
    match scriptTryAt rest (j + 1) with
    | some r => some r
    | none => scriptScanBack rest j

/-- Match `\[.*COLUMNS="(\d{1,3})" LINES="(\d{1,3})".*\]` at the head:
a literal `[`, then the greedy-`.*` search (the skipped characters
must all be matched by `.`, hence lie in the maximal non-terminator
prefix). -/
def scriptMatchAt (l : List Char) : Option (Nat × Nat) :=
  match l with
  | '[' :: rest => scriptScanBack rest (rest.takeWhile isRegexDot).length
  | _ => none

/-- `text.match(/\[.*COLUMNS="(\d{1,3})" LINES="(\d{1,3})".*\]/)`,
returning `(parseInt(match[1]), parseInt(match[2]))` = `(cols, rows)`. -/
def sizeFromScriptStartMessage (text : List Char) : Option (Nat × Nat) :=
  scanFirst scriptMatchAt text

/-! ## Reconnect backoff -/

/-- `exponentialDelay(attempt) = Math.min(500 * Math.pow(2, attempt), 5000)`. -/
def exponentialDelay (attempt : Nat) : Nat :=
  min (500 * 2 ^ attempt) 5000

/-! ## The driver state machine

The closure variables of `websocket(...)` become a `DriverState`; the
driver's interactions with its collaborators become `Effect`s. -/

/-- Modelled from the spec: the Clock collaborator (`../clock`, not
among the visible sources) holds a mutable virtual time, set
explicitly by `setTime` and read by `getTime`; it does not
auto-advance.  `NullClock` reports an absent time.  A freshly
constructed `Clock` starts at virtual time 0. -/
inductive ClockM where
  | nullC
  | activeC (time : JsNum)
  deriving DecidableEq, Repr

/-- `clock.getTime()`: absent for `NullClock`, the stored virtual time
otherwise. -/
def ClockM.getTime : ClockM → Option JsNum
  | .nullC => none
  | .activeC t => some t

/-- The driver's Buffer handle: only the base stream time it was
constructed with matters here; pushes are recorded as effects. -/
structure BufferM where
  baseTime : JsVal

/-- Which function is currently assigned to `socket.onmessage`. -/
inductive Handler where
  | detect
  | json
  | stream
  | raw
  deriving DecidableEq, Repr

/-- The mutable closure state of `websocket(...)`. -/
structure DriverState where
  handler : Handler
  socketExists : Bool
  stopFlag : Bool
  reconnectAttempt : Nat
  stabilityArmed : Bool
  buf : Option BufferM
  clock : ClockM

/-- Externally observable actions of the driver: calls into the
collaborator callbacks (`setState`, `reset`), logger calls, Buffer
operations, socket closing, timer arming, and a thrown JS exception
(which aborts the current handler with no further action). -/
inductive Effect where
  | logE (level msg : String)
  | setStateE (name : String) (reason : Option String)
  | resetCbE (cols rows init : JsVal)
  | bufStopE
  | bufPushE (e : JsVal)
  | bufPushTextE (text : String)
  | closeSocketE
  | scheduleReconnectE (delay : Nat)
  | armStabilityE
  | clearStabilityE
  | jsErrorE

/-- An inbound socket message: a string (modelled after `JSON.parse`)
or an `ArrayBuffer` of bytes. -/
inductive MsgData where
  | text (j : JsVal)
  | binary (bytes : List Nat)

/-- Occurrences the driver reacts to: socket events, its two timers,
and the public `play()` / `stop()` calls. -/
inductive DriverInput where
  | playCall
  | openEvt
  | message (d : MsgData)
  | closeEvt (code : Nat)
  | stopCall
  | stabilityFire
  | reconnectFire

/-- Driver configuration; only the pluggable backoff function is
relevant to the embedded behaviour. -/
structure Config where
  reconnectDelay : Nat → Nat

/-- The default configuration. -/
def defaultConfig : Config := ⟨exponentialDelay⟩

/-- `initBuffer(baseStreamTime)`: stop the previous Buffer if any and
construct a fresh one seeded with the given base stream time. -/
def initBufferF (s : DriverState) (baseStreamTime : JsVal) :
    DriverState × List Effect :=
  ({ s with buf := some ⟨baseStreamTime⟩ },
   if s.buf.isSome then [.bufStopE] else [])

/-- `buf.pushEvent(e)`: throws when no Buffer exists. -/
def pushEventF (s : DriverState) (e : JsVal) : DriverState × List Effect :=
  match s.buf with
  | some _ => (s, [.bufPushE e])
  | none => (s, [.jsErrorE])

/-- `buf.pushText(t)`: throws when no Buffer exists. -/
def pushTextF (s : DriverState) (t : String) : DriverState × List Effect :=
  match s.buf with
  | some _ => (s, [.bufPushTextE t])
  | none => (s, [.jsErrorE])

/-- `handleResetMessage(cols, rows, time, init)`. -/
def handleResetMessageF (s : DriverState) (cols rows time init : JsVal) :
    DriverState × List Effect :=
  let (s1, e1) := initBufferF s time
  let freshClock := ClockM.activeC (JsNum.fin 0)
  let newClock :=
    match time with
    | .num n => ClockM.activeC n
    | _ => freshClock
  ({ s1 with clock := newClock },
   [.logE "debug" "stream reset", .setStateE "playing" none] ++ e1 ++
     [.resetCbE cols rows init])

/-- `handleOfflineMessage()`. -/
def handleOfflineMessageF (s : DriverState) : DriverState × List Effect :=
  ({ s with clock := .nullC },
   [.logE "info" "stream offline", .setStateE "offline" none])

/-- `e.status === 'offline'`. -/
def isOfflineStatus (v : JsVal) : Bool :=
  match v with
  | .str s => s = "offline"
  | _ => false

/-- `handleJsonMessage(event)` after `JSON.parse`: arrays are pushed
unchanged; objects with a defined `cols` or `width` trigger reset
handling; objects whose `status` is `'offline'` trigger offline
handling; everything else falls through.  A parsed `null` throws on
the `e.cols` access. -/
def handleJsonMessageF (s : DriverState) (j : JsVal) : DriverState × List Effect :=
  match j with
  | .arr elems => pushEventF s (.arr elems)
  | .null => (s, [.jsErrorE])
  | _ =>
    if isDefined (jsGet j "cols") || isDefined (jsGet j "width") then
      handleResetMessageF s
        (jsCoalesce (jsGet j "cols") (jsGet j "width"))
        (jsCoalesce (jsGet j "rows") (jsGet j "height"))
        (jsGet j "time")
        (jsCoalesce (jsGet j "init") .undefV)
    else if isOfflineStatus (jsGet j "status") then
      handleOfflineMessageF s
    else
      (s, [])

/-- The action encoded by one ALiS binary frame. -/
inductive StreamAction where
  | resetA (cols rows : Nat) (time : JsNum) (init : Option String)
  | outputA (time : JsNum) (text : String)
  | resizeA (time : JsNum) (cols rows : Nat)
  | offlineA
  | unknownA (tag : Nat)
  deriving DecidableEq, Repr

/-- The pure decoding part of `handleStreamMessage` (main revision):
`DataView` reads at the source's offsets plus the bounds-checked
`new Uint8Array(buffer, off, len)` text views; `none` is a thrown
exception. -/
def decodeStreamFrame (bytes : List Nat) : Option StreamAction := do
  let tag ← getUint8 bytes 0
  if tag = 0x01 then
    let cols ← getUint16LE bytes 1
    let rows ← getUint16LE bytes 3
    let time ← getFloat32LE bytes 5
    let len ← getUint32LE bytes 9
    if 0 < len then
      let initBytes ← viewExact bytes 13 len
      pure (.resetA cols rows time (some (utf8Decode initBytes)))
    else
      pure (.resetA cols rows time none)
  else if tag = 0x6f then
    let time ← getFloat32LE bytes 1
    let len ← getUint32LE bytes 5
    let textBytes ← viewExact bytes 9 len
    pure (.outputA time (utf8Decode textBytes))
  else if tag = 0x72 then
    let time ← getFloat32LE bytes 1
    let cols ← getUint16LE bytes 5
    let rows ← getUint16LE bytes 7
    pure (.resizeA time cols rows)
  else if tag = 0x04 then
    pure .offlineA
  else
    pure (.unknownA tag)

/-- The effectful part of `handleStreamMessage`. -/
def applyStreamAction (s : DriverState) :
    Option StreamAction → DriverState × List Effect
  | none => (s, [.jsErrorE])
  | some (.resetA cols rows time init) =>
    handleResetMessageF s (.num (.fin cols)) (.num (.fin rows)) (.num time)
      (match init with
       | some t => .str t
       | none => .undefV)
  | some (.outputA time text) =>
    pushEventF s (.arr [.num time, .str "o", .str text])
  | some (.resizeA time cols rows) =>
    pushEventF s (.arr [.num time, .str "r",
      .str (toString cols ++ "x" ++ toString rows)])
  | some .offlineA => handleOfflineMessageF s
  | some (.unknownA _) => (s, [.logE "debug" "unknown frame type"])

/-- `handleStreamMessage(event)` (main revision). -/
def handleStreamMessageF (s : DriverState) (bytes : List Nat) :
    DriverState × List Effect :=
  applyStreamAction s (decodeStreamFrame bytes)

/-- `handleRawTextMessage(event)`: decode the payload as UTF-8 and
push it as free text (`TextDecoder.decode` throws on a non-buffer). -/
def handleRawTextMessageF (s : DriverState) : MsgData → DriverState × List Effect
  | .binary bytes => pushTextF s (utf8Decode bytes)
  | .text _ => (s, [.jsErrorE])

/-- `detectProtocol(event)` (main revision): sniff the first message
and permanently assign the per-format handler. -/
def detectProtocolF (s : DriverState) (d : MsgData) : DriverState × List Effect :=
  match d with
  | .text j =>
    let s1 := { s with handler := .json }
    let (s2, e2) := handleJsonMessageF s1 j
    (s2, .logE "info" "activating asciicast-compatible handler" :: e2)
  | .binary arr =>
    if (arr[0]? == some 0x41) && (arr[1]? == some 0x4c) &&
        (arr[2]? == some 0x69) && (arr[3]? == some 0x53) then
      if arr[4]? == some 1 then
        let compEffects :=
          match arr[5]? with
          | some 0 => [Effect.logE "debug" "text compression none"]
          | _ => [Effect.logE "error" "unsupported compression algorithm",
                  Effect.closeSocketE]
        ({ s with handler := .stream },
         Effect.logE "info" "activating ALiS v1 handler" :: compEffects)
      else
        (s, [Effect.logE "warn" "unsupported ALiS version", Effect.closeSocketE])
    else
      let text := utf8DecodeChars arr
      let size :=
        (sizeFromResizeSeq text).orElse fun _ => sizeFromScriptStartMessage text
      let (s1, e1) :=
        match size with
        | some (cols, rows) =>
          handleResetMessageF s (.num (.fin cols)) (.num (.fin rows))
            (.num (.fin 0)) .undefV
        | none => (s, [])
      let s2 := { s1 with handler := .raw }
      let (s3, e3) := handleRawTextMessageF s2 (.binary arr)
      (s3, Effect.logE "info" "activating raw text handler" :: (e1 ++ e3))

/-- `socket.onopen`: fresh Buffer (no base time) and the one-shot
stability timer. -/
def stepOpen (s : DriverState) : DriverState × List Effect :=
  let (s1, e1) := initBufferF s .undefV
  ({ s1 with stabilityArmed := true },
   .logE "info" "opened" :: e1 ++ [.armStabilityE])

/-- `socket.onclose`: clean (stopped, or close code 1000/1005) versus
unclean close. -/
def stepClose (cfg : Config) (s : DriverState) (code : Nat) :
    DriverState × List Effect :=
  if s.stopFlag || code == 1000 || code == 1005 then
    (s, [.logE "info" "closed", .setStateE "stopped" (some "ended")])
  else
    let delay := cfg.reconnectDelay s.reconnectAttempt
    ({ s with reconnectAttempt := s.reconnectAttempt + 1, stabilityArmed := false },
     [.clearStabilityE, .logE "info" "unclean close, reconnecting",
      .setStateE "loading" none, .scheduleReconnectE delay])

/-- `connect()`: a new socket whose `onmessage` starts at
`detectProtocol`. -/
def connectF (s : DriverState) : DriverState × List Effect :=
  ({ s with socketExists := true, handler := .detect }, [])

/-- The public `stop()`. -/
def stopCallF (s : DriverState) : DriverState × List Effect :=
  ({ s with stopFlag := true },
   (if s.buf.isSome then [.bufStopE] else []) ++
     (if s.socketExists then [.closeSocketE] else []))

/-- One reaction of the driver to one input. -/
def step (cfg : Config) (s : DriverState) : DriverInput → DriverState × List Effect
  | .playCall => connectF s
  | .openEvt => stepOpen s
  | .message d =>
    match s.handler, d with
    | .detect, _ => detectProtocolF s d
    | .json, .text j => handleJsonMessageF s j
    | .json, .binary _ => (s, [.jsErrorE])
    | .stream, .binary bytes => handleStreamMessageF s bytes
    | .stream, .text _ => (s, [.jsErrorE])
    | .raw, _ => handleRawTextMessageF s d
  | .closeEvt code => stepClose cfg s code
  | .stopCall => stopCallF s
  | .stabilityFire =>
    if s.stabilityArmed then
      ({ s with reconnectAttempt := 0, stabilityArmed := false }, [])
    else
      (s, [])
  | .reconnectFire => connectF s

/-- The closure state right after `websocket(...)` returns. -/
def initialState : DriverState :=
  { handler := .detect, socketExists := false, stopFlag := false,
    reconnectAttempt := 0, stabilityArmed := false, buf := none,
    clock := .nullC }

/-- Run a whole input trace, collecting each step's effects. -/
def run (cfg : Config) : DriverState → List DriverInput → DriverState × List (List Effect)
  | s, [] => (s, [])
  | s, i :: rest =>
    let (s1, effs) := step cfg s i
    let (s2, effsRest) := run cfg s1 rest
    (s2, effs :: effsRest)

/-- `getCurrentTime()` (main revision): delegate to the Clock. -/
def getCurrentTimeF (s : DriverState) : Option JsNum :=
  s.clock.getTime

/-! ## The older revision's stream decoder (`unnamed/part_000`)

It reads the tag by `array[0]` (out-of-range indexing yields
`undefined`, matching no tag, hence the unknown branch — represented
by the out-of-range marker 256), has no resize tag and no compression
negotiation, and extracts text with `array.slice`, which clamps to
the available bytes instead of throwing. -/

/-- `handleStreamMessage` decoding of the older revision. -/
def decodeStreamFrameOld (bytes : List Nat) : Option StreamAction :=
  match bytes[0]? with
  | none => some (.unknownA 256)
  | some tag =>
    if tag = 0x01 then do
      let cols ← getUint16LE bytes 1
      let rows ← getUint16LE bytes 3
      let time ← getFloat32LE bytes 5
      let len ← getUint32LE bytes 9
      if 0 < len then
        pure (.resetA cols rows time (some (utf8Decode (sliceClamped bytes 13 (13 + len)))))
      else
        pure (.resetA cols rows time none)
    else if tag = 0x6f then do
      let time ← getFloat32LE bytes 1
      let len ← getUint32LE bytes 5
      pure (.outputA time (utf8Decode (sliceClamped bytes 9 (9 + len))))
    else if tag = 0x04 then
      pure .offlineA
    else
      pure (.unknownA tag)

/-! ## Observation helpers over effect lists -/

/-- The `setState` calls in an effect list, in order. -/
def setStatesOf (effs : List Effect) : List (String × Option String) :=
  effs.filterMap fun e =>
    match e with
    | .setStateE n r => some (n, r)
    | _ => none

/-- The `reset(cols, rows, init)` calls in an effect list, in order. -/
def resetCbsOf (effs : List Effect) : List (JsVal × JsVal × JsVal) :=
  effs.filterMap fun e =>
    match e with
    | .resetCbE c r i => some (c, r, i)
    | _ => none

/-- The scheduled reconnect delays in an effect list. -/
def reconnectsOf (effs : List Effect) : List Nat :=
  effs.filterMap fun e =>
    match e with
    | .scheduleReconnectE d => some d
    | _ => none

/-- The events pushed to the Buffer in an effect list. -/
def pushesOf (effs : List Effect) : List JsVal :=
  effs.filterMap fun e =>
    match e with
    | .bufPushE v => some v
    | _ => none

/-- The raw text pushed to the Buffer in an effect list. -/
def pushTextsOf (effs : List Effect) : List String :=
  effs.filterMap fun e =>
    match e with
    | .bufPushTextE t => some t
    | _ => none

/-- The levels of the logger calls in an effect list. -/
def logLevelsOf (effs : List Effect) : List String :=
  effs.filterMap fun e =>
    match e with
    | .logE level _ => some level
    | _ => none

/-- Does the effect list close the socket? -/
def hasCloseSocket (effs : List Effect) : Bool :=
  effs.any fun e =>
    match e with
    | .closeSocketE => true
    | _ => false

/-- Does the effect list stop the active Buffer? -/
def hasBufStop (effs : List Effect) : Bool :=
  effs.any fun e =>
    match e with
    | .bufStopE => true
    | _ => false

/-- The driver state right after `play()` and the socket's `onopen`
event (a socket exists and an unseeded Buffer is active). -/
def openState : DriverState :=
  (run defaultConfig initialState [.playCall, .openEvt]).1

/-- No step of a collected effect trace invokes the `reset` callback. -/
def noResetCb (effss : List (List Effect)) : Bool :=
  effss.all fun effs => (resetCbsOf effs).isEmpty

end WsDriver

namespace WsDriver

/-! ## Clock-tracking lemmas

Only reset handling installs an active Clock; offline handling clears
it; every other code path leaves it untouched.  These lemmas chase
that fact through each handler and through whole runs. -/

lemma resetCbsOf_reset (s : DriverState) (c r t i : JsVal) :
    resetCbsOf (handleResetMessageF s c r t i).2 = [(c, r, i)] := by
  unfold handleResetMessageF initBufferF
  rcases hb : s.buf with _ | b <;> simp [resetCbsOf, hb]

lemma pushEventF_state (s : DriverState) (e : JsVal) : (pushEventF s e).1 = s := by
  unfold pushEventF
  rcases hb : s.buf with _ | b <;> simp

lemma pushTextF_state (s : DriverState) (t : String) : (pushTextF s t).1 = s := by
  unfold pushTextF
  rcases hb : s.buf with _ | b <;> simp

lemma rawF_state (s : DriverState) (d : MsgData) :
    (handleRawTextMessageF s d).1 = s := by
  cases d with
  | binary bytes => exact pushTextF_state s _
  | text j => rfl

lemma json_clock (s : DriverState) (j : JsVal)
    (hno : resetCbsOf (handleJsonMessageF s j).2 = []) :
    (handleJsonMessageF s j).1.clock = s.clock ∨
      (handleJsonMessageF s j).1.clock = .nullC := by
  cases j with
  | arr elems => left; rw [show handleJsonMessageF s (.arr elems) =
      pushEventF s (.arr elems) from rfl, pushEventF_state]
  | null => left; rfl
  | undefV =>
    simp only [handleJsonMessageF] at hno ⊢
    split_ifs at hno ⊢ with h1 h2
    · rw [resetCbsOf_reset] at hno; cases hno
    · right; rfl
    · left; rfl
  | bool b =>
    simp only [handleJsonMessageF] at hno ⊢
    split_ifs at hno ⊢ with h1 h2
    · rw [resetCbsOf_reset] at hno; cases hno
    · right; rfl
    · left; rfl
  | num n =>
    simp only [handleJsonMessageF] at hno ⊢
    split_ifs at hno ⊢ with h1 h2
    · rw [resetCbsOf_reset] at hno; cases hno
    · right; rfl
    · left; rfl
  | str t =>
    simp only [handleJsonMessageF] at hno ⊢
    split_ifs at hno ⊢ with h1 h2
    · rw [resetCbsOf_reset] at hno; cases hno
    · right; rfl
    · left; rfl
  | obj fields =>
    simp only [handleJsonMessageF] at hno ⊢
    split_ifs at hno ⊢ with h1 h2
    · rw [resetCbsOf_reset] at hno; cases hno
    · right; rfl
    · left; rfl

lemma stream_clock (s : DriverState) (bytes : List Nat)
    (hno : resetCbsOf (handleStreamMessageF s bytes).2 = []) :
    (handleStreamMessageF s bytes).1.clock = s.clock ∨
      (handleStreamMessageF s bytes).1.clock = .nullC := by
  unfold handleStreamMessageF at hno ⊢
  rcases hd : decodeStreamFrame bytes with _ | a
  · left; rfl
  · rw [hd] at hno
    cases a with
    | resetA c r t i =>
      exfalso
      cases i with
      | some t0 =>
        rw [show applyStreamAction s (some (.resetA c r t (some t0))) =
          handleResetMessageF s (.num (.fin c)) (.num (.fin r)) (.num t)
            (.str t0) from rfl, resetCbsOf_reset] at hno
        cases hno
      | none =>
        rw [show applyStreamAction s (some (.resetA c r t none)) =
          handleResetMessageF s (.num (.fin c)) (.num (.fin r)) (.num t)
            .undefV from rfl, resetCbsOf_reset] at hno
        cases hno
    | outputA t text =>
      left
      rw [show applyStreamAction s (some (.outputA t text)) =
        pushEventF s (.arr [.num t, .str "o", .str text]) from rfl,
        pushEventF_state]
    | resizeA t c r =>
      left
      rw [show applyStreamAction s (some (.resizeA t c r)) =
        pushEventF s (.arr [.num t, .str "r",
          .str (toString c ++ "x" ++ toString r)]) from rfl, pushEventF_state]
    | offlineA => right; rfl
    | unknownA tag => left; rfl

lemma detect_clock (s : DriverState) (d : MsgData)
    (hno : resetCbsOf (detectProtocolF s d).2 = []) :
    (detectProtocolF s d).1.clock = s.clock ∨
      (detectProtocolF s d).1.clock = .nullC := by
  cases d with
  | text j =>
    cases hj : handleJsonMessageF { s with handler := .json } j with
    | mk s2 e2 =>
      have hno' : resetCbsOf (handleJsonMessageF { s with handler := .json } j).2 = [] := by
        rw [hj]
        simpa [detectProtocolF, hj, resetCbsOf] using hno
      have h := json_clock { s with handler := .json } j hno'
      rw [hj] at h
      simpa [detectProtocolF, hj] using h
  | binary arr =>
    by_cases hm : ((arr[0]? == some 0x41) && (arr[1]? == some 0x4c) &&
        (arr[2]? == some 0x69) && (arr[3]? == some 0x53)) = true
    · by_cases hv : (arr[4]? == some 1) = true
      · left; simp [detectProtocolF, hm, hv]
      · left; simp [detectProtocolF, hm, hv]
    · rcases hsize : (sizeFromResizeSeq (utf8DecodeChars arr)).orElse
          (fun _ => sizeFromScriptStartMessage (utf8DecodeChars arr)) with _ | ⟨c, r⟩
      · left
        simp [detectProtocolF, hm, hsize, rawF_state]
      · exfalso
        have : resetCbsOf (detectProtocolF s (.binary arr)).2 ≠ [] := by
          simp [detectProtocolF, hm, hsize, resetCbsOf, handleResetMessageF,
            initBufferF, handleRawTextMessageF, pushTextF]
        exact this hno

lemma step_clock (cfg : Config) (s : DriverState) (i : DriverInput)
    (hno : resetCbsOf (step cfg s i).2 = []) :
    (step cfg s i).1.clock = s.clock ∨ (step cfg s i).1.clock = .nullC := by
  cases i with
  | playCall => left; rfl
  | reconnectFire => left; rfl
  | openEvt => left; rfl
  | closeEvt code =>
    left
    simp only [step, stepClose]
    split <;> rfl
  | stopCall => left; rfl
  | stabilityFire =>
    left
    simp only [step]
    split <;> rfl
  | message d =>
    cases hh : s.handler with
    | detect =>
      have hno' : resetCbsOf (detectProtocolF s d).2 = [] := by
        simpa [step, hh] using hno
      have h := detect_clock s d hno'
      simpa [step, hh] using h
    | json =>
      cases d with
      | text j =>
        have hno' : resetCbsOf (handleJsonMessageF s j).2 = [] := by
          simpa [step, hh] using hno
        have h := json_clock s j hno'
        simpa [step, hh] using h
      | binary bytes => left; simp [step, hh]
    | stream =>
      cases d with
      | binary bytes =>
        have hno' : resetCbsOf (handleStreamMessageF s bytes).2 = [] := by
          simpa [step, hh] using hno
        have h := stream_clock s bytes hno'
        simpa [step, hh] using h
      | text j => left; simp [step, hh]
    | raw =>
      left
      cases d with
      | binary bytes => simp [step, hh, rawF_state, handleRawTextMessageF,
          pushTextF_state]
      | text j => simp [step, hh, rawF_state, handleRawTextMessageF]

lemma run_cons (cfg : Config) (s : DriverState) (i : DriverInput)
    (rest : List DriverInput) :
    run cfg s (i :: rest) =
      ((run cfg (step cfg s i).1 rest).1,
       (step cfg s i).2 :: (run cfg (step cfg s i).1 rest).2) := by
  cases h1 : step cfg s i with
  | mk s1 effs =>
    cases h2 : run cfg s1 rest with
    | mk s2 er => simp [run, h1, h2]

lemma run_clock_null (cfg : Config) (inputs : List DriverInput) :
    ∀ s : DriverState, s.clock = .nullC →
      noResetCb (run cfg s inputs).2 = true →
      (run cfg s inputs).1.clock = .nullC := by
  induction inputs with
  | nil =>
    intro s h _
    simpa [run] using h
  | cons i rest ih =>
    intro s h hno
    rw [run_cons] at hno ⊢
    simp only [noResetCb, List.all_cons, Bool.and_eq_true, List.isEmpty_iff] at hno
    have h1 : resetCbsOf (step cfg s i).2 = [] := hno.1
    have h2 : noResetCb (run cfg (step cfg s i).1 rest).2 = true := by
      simp only [noResetCb]
      exact hno.2
    rcases step_clock cfg s i h1 with he | he
    · exact ih _ (by rw [he, h]) h2
    · exact ih _ he h2

end WsDriver

namespace WsDriver

/-! ## Claims -/

/-- C6: the default reconnect-delay function satisfies
`delay(attempt) = min(500 * 2^attempt, 5000)` for every natural
attempt count; it is strictly increasing until it saturates at the cap
5000, and yields the schedule 500, 1000, 2000, 4000, 5000, 5000 for
attempts 0..5. -/
theorem C6_exponential_backoff :
    (∀ n : ℕ, exponentialDelay n = min (500 * 2 ^ n) 5000) ∧
    (∀ n : ℕ, exponentialDelay n < 5000 →
      exponentialDelay n < exponentialDelay (n + 1)) ∧
    (∀ n : ℕ, 4 ≤ n → exponentialDelay n = 5000) ∧
    (List.range 6).map exponentialDelay = [500, 1000, 2000, 4000, 5000, 5000] := by
  have hsat : ∀ n : ℕ, 4 ≤ n → exponentialDelay n = 5000 := by
    intro n hn
    have h16 : (16 : ℕ) ≤ 2 ^ n := by
      calc (16 : ℕ) = 2 ^ 4 := by norm_num
        _ ≤ 2 ^ n := Nat.pow_le_pow_right (by norm_num) hn
    have hbig : 5000 ≤ 500 * 2 ^ n := by
      calc (5000 : ℕ) ≤ 500 * 16 := by norm_num
        _ ≤ 500 * 2 ^ n := Nat.mul_le_mul_left _ h16
    unfold exponentialDelay
    exact min_eq_right hbig
  refine ⟨fun n => rfl, ?_, hsat, by decide⟩
  intro n h
  have h4 : n < 4 := by
    by_contra hge
    push_neg at hge
    rw [hsat n hge] at h
    omega
  interval_cases n <;> decide

/-- C6 witness: concrete instantiations of the hypotheses of
`C6_exponential_backoff`. -/
theorem C6_witness :
    exponentialDelay 2 < exponentialDelay 3 ∧ exponentialDelay 7 = 5000 :=
  ⟨C6_exponential_backoff.2.1 2 (by decide),
   C6_exponential_backoff.2.2.1 7 (by decide)⟩

/-- C2: on socket close, if the stop flag is set or the close code is
1000 or 1005, the driver reports `stopped` with reason `ended` and
schedules no reconnect; otherwise it cancels the stability timer,
schedules a reconnect after `reconnectDelay(attempt)`, increments the
attempt count, and reports `loading`. -/
theorem C2_close_handler (cfg : Config) (s : DriverState) (code : Nat) :
    (s.stopFlag = true ∨ code = 1000 ∨ code = 1005 →
      setStatesOf (stepClose cfg s code).2 = [("stopped", some "ended")] ∧
      reconnectsOf (stepClose cfg s code).2 = [] ∧
      (stepClose cfg s code).1 = s) ∧
    (s.stopFlag = false → code ≠ 1000 → code ≠ 1005 →
      Effect.clearStabilityE ∈ (stepClose cfg s code).2 ∧
      reconnectsOf (stepClose cfg s code).2 = [cfg.reconnectDelay s.reconnectAttempt] ∧
      setStatesOf (stepClose cfg s code).2 = [("loading", none)] ∧
      (stepClose cfg s code).1.reconnectAttempt = s.reconnectAttempt + 1 ∧
      (stepClose cfg s code).1.stabilityArmed = false) := by
  constructor
  · intro h
    have hb : (s.stopFlag || code == 1000 || code == 1005) = true := by
      rcases h with h | h | h <;> simp [h]
    simp [stepClose, hb, setStatesOf, reconnectsOf]
  · intro h1 h2 h3
    have hb : (s.stopFlag || code == 1000 || code == 1005) = false := by
      simp [h1, h2, h3]
    simp [stepClose, hb, setStatesOf, reconnectsOf]

/-- C2 witness: a clean close (code 1000) and an unclean close (code
1006) of `C2_close_handler` at concrete states. -/
theorem C2_witness :
    (setStatesOf (stepClose defaultConfig openState 1000).2 =
        [("stopped", some "ended")] ∧
      reconnectsOf (stepClose defaultConfig openState 1000).2 = []) ∧
    (reconnectsOf (stepClose defaultConfig openState 1006).2 = [500] ∧
      (stepClose defaultConfig openState 1006).1.reconnectAttempt = 1) := by
  have h1 := (C2_close_handler defaultConfig openState 1000).1 (Or.inr (Or.inl rfl))
  have h2 := (C2_close_handler defaultConfig openState 1006).2 (by decide)
    (by decide) (by decide)
  exact ⟨⟨h1.1, h1.2.1⟩, ⟨h2.2.1, h2.2.2.2.1⟩⟩

/-- C1 counterexample: the claim says that after `stop()` no further
`setState` call occurs; but in the run `play(); stop(); close(1000)`
the close handler, which runs after `stop()`, calls
`setState('stopped', {reason: 'ended'})`. -/
theorem C1_counterexample :
    setStatesOf ((run defaultConfig initialState
        [.playCall, .stopCall, .closeEvt 1000]).2.getD 2 []) =
      [("stopped", some "ended")] := by
  rfl

/-- C1 (amended): after `stop()` the close handler takes the clean
path: it schedules no reconnect and makes no `feed`/`reset`/Buffer
calls, and its only callback is one final
`setState('stopped', {reason:'ended'})`; however `stop()` does not
cancel an already scheduled reconnect, so a pending reconnect timer
can still open a new connection whose stream produces further
`setState` and `reset` calls. -/
theorem C1_amended_after_stop (cfg : Config) (s : DriverState) (code : Nat)
    (h : s.stopFlag = true) :
    ((stepClose cfg s code).2 =
        [.logE "info" "closed", .setStateE "stopped" (some "ended")] ∧
      reconnectsOf (stepClose cfg s code).2 = [] ∧
      resetCbsOf (stepClose cfg s code).2 = [] ∧
      pushesOf (stepClose cfg s code).2 = [] ∧
      (stepClose cfg s code).1 = s) ∧
    (setStatesOf ((run defaultConfig initialState
        [.playCall, .closeEvt 1006, .stopCall, .reconnectFire, .openEvt,
         .message (.text (.obj [("cols", .num (.fin 80)),
           ("rows", .num (.fin 24)), ("time", .num (.fin 0))]))]).2.getD 5 []) =
        [("playing", none)] ∧
      (resetCbsOf ((run defaultConfig initialState
        [.playCall, .closeEvt 1006, .stopCall, .reconnectFire, .openEvt,
         .message (.text (.obj [("cols", .num (.fin 80)),
           ("rows", .num (.fin 24)), ("time", .num (.fin 0))]))]).2.getD 5 [])).length = 1) := by
  constructor
  · have hb : (s.stopFlag || code == 1000 || code == 1005) = true := by simp [h]
    simp [stepClose, hb, setStatesOf, reconnectsOf, resetCbsOf, pushesOf]
  · exact ⟨rfl, rfl⟩

/-- C1 witness: `C1_amended_after_stop` at a concrete stopped state. -/
theorem C1_witness :
    (stepClose defaultConfig { openState with stopFlag := true } 1006).2 =
      [.logE "info" "closed", .setStateE "stopped" (some "ended")] :=
  (C1_amended_after_stop defaultConfig { openState with stopFlag := true } 1006 rfl).1.1

/-- C3 counterexample: for the first binary frame `ALiS` with version
byte 2, the claim says the error is logged at error level; the code
logs it at warn level.  For version 1 with compression byte 1, the
claim says no per-frame handler takes effect; the code assigns the
stream handler to `onmessage`. -/
theorem C3_counterexample :
    logLevelsOf (detectProtocolF openState (.binary [0x41, 0x4c, 0x69, 0x53, 2])).2 =
      ["warn"] ∧
    (detectProtocolF openState (.binary [0x41, 0x4c, 0x69, 0x53, 1, 1])).1.handler =
      Handler.stream := by
  exact ⟨rfl, rfl⟩

/-- C3 (amended): for a first binary frame matching the `ALiS` magic:
if the version byte is not 1 (or absent), the mismatch is logged at
warn level and the socket is closed, with no per-frame handler
installed; if the version is 1 but the compression byte is nonzero or
absent, the error is logged at error level and the socket is closed,
although the stream handler is nonetheless assigned to `onmessage`
(no further frames arrive only because the socket is closing). -/
theorem C3_amended_alis_errors (s : DriverState) (arr : List Nat)
    (hm0 : arr[0]? = some 0x41) (hm1 : arr[1]? = some 0x4c)
    (hm2 : arr[2]? = some 0x69) (hm3 : arr[3]? = some 0x53) :
    (arr[4]? ≠ some 1 →
      detectProtocolF s (.binary arr) =
        (s, [.logE "warn" "unsupported ALiS version", .closeSocketE])) ∧
    (arr[4]? = some 1 → arr[5]? ≠ some 0 →
      (detectProtocolF s (.binary arr)).2 =
        [.logE "info" "activating ALiS v1 handler",
         .logE "error" "unsupported compression algorithm", .closeSocketE] ∧
      (detectProtocolF s (.binary arr)).1 = { s with handler := .stream }) := by
  constructor
  · intro hv
    have hv' : (arr[4]? == some 1) = false := by simp [hv]
    simp [detectProtocolF, hm0, hm1, hm2, hm3, hv']
  · intro hv hc
    rcases hcase : arr[5]? with _ | c
    · simp [detectProtocolF, hm0, hm1, hm2, hm3, hv, hcase]
    · have : c ≠ 0 := by
        intro hc0
        exact hc (by rw [hcase, hc0])
      constructor <;>
        simp [detectProtocolF, hm0, hm1, hm2, hm3, hv, hcase, this]

/-- C5: reset handling performs, in order: log; `setState('playing')`;
stop of the previously active Buffer (exactly when one exists) and
construction of a new one seeded with the reset's base time;
the external `reset(cols, rows, init)` callback.  It leaves a fresh
active Clock, set to the reset time when that time is a number.  In
particular the JSON message `{"cols":80,"rows":24,"time":0}` leaves
the reported state `playing` and `getCurrentTime()` returning 0. -/
theorem C5_reset_handling (s : DriverState) (cols rows time init : JsVal) :
    ((handleResetMessageF s cols rows time init).2 =
      [.logE "debug" "stream reset", .setStateE "playing" none] ++
        (if s.buf.isSome then [Effect.bufStopE] else []) ++
        [.resetCbE cols rows init]) ∧
    (handleResetMessageF s cols rows time init).1.buf = some ⟨time⟩ ∧
    (handleResetMessageF s cols rows time init).1.clock ≠ .nullC ∧
    (∀ n : JsNum, time = .num n →
      (handleResetMessageF s cols rows time init).1.clock = .activeC n) ∧
    (getCurrentTimeF (run defaultConfig initialState
        [.playCall, .openEvt, .message (.text (.obj [("cols", .num (.fin 80)),
          ("rows", .num (.fin 24)), ("time", .num (.fin 0))]))]).1 =
        some (.fin 0) ∧
      setStatesOf ((run defaultConfig initialState
        [.playCall, .openEvt, .message (.text (.obj [("cols", .num (.fin 80)),
          ("rows", .num (.fin 24)), ("time", .num (.fin 0))]))]).2.getD 2 []) =
        [("playing", none)]) := by
  refine ⟨?_, ?_, ?_, ?_, rfl, rfl⟩
  · simp [handleResetMessageF, initBufferF]
  · simp [handleResetMessageF, initBufferF]
  · unfold handleResetMessageF initBufferF
    cases time <;> simp
  · intro n hn
    subst hn
    simp [handleResetMessageF, initBufferF]

/-- C5 witness: `C5_reset_handling` at the concrete reset
`(80, 24, 0, undefined)` in the post-open state, discharging the
numeric-time hypothesis at 0. -/
theorem C5_witness :
    (handleResetMessageF openState (.num (.fin 80)) (.num (.fin 24))
        (.num (.fin 0)) .undefV).1.clock = .activeC (.fin 0) :=
  (C5_reset_handling openState (.num (.fin 80)) (.num (.fin 24))
      (.num (.fin 0)) .undefV).2.2.2.1 (.fin 0) rfl

/-- C7: JSON dispatch — an array is pushed to the Buffer unchanged; an
object with a defined `cols` or `width` field triggers full reset
handling with the coalesced geometry fields; an object whose `status`
field is `'offline'` triggers offline handling; every other object is
ignored with no state change and no effect. -/
theorem C7_json_dispatch (s : DriverState) :
    (∀ elems : List JsVal, ∀ b : BufferM, s.buf = some b →
      handleJsonMessageF s (.arr elems) = (s, [.bufPushE (.arr elems)])) ∧
    (∀ fields : List (String × JsVal),
      (isDefined (jsGet (.obj fields) "cols") ||
        isDefined (jsGet (.obj fields) "width")) = true →
      handleJsonMessageF s (.obj fields) =
        handleResetMessageF s
          (jsCoalesce (jsGet (.obj fields) "cols") (jsGet (.obj fields) "width"))
          (jsCoalesce (jsGet (.obj fields) "rows") (jsGet (.obj fields) "height"))
          (jsGet (.obj fields) "time")
          (jsCoalesce (jsGet (.obj fields) "init") .undefV)) ∧
    (∀ fields : List (String × JsVal),
      (isDefined (jsGet (.obj fields) "cols") ||
        isDefined (jsGet (.obj fields) "width")) = false →
      isOfflineStatus (jsGet (.obj fields) "status") = true →
      handleJsonMessageF s (.obj fields) = handleOfflineMessageF s) ∧
    (∀ fields : List (String × JsVal),
      (isDefined (jsGet (.obj fields) "cols") ||
        isDefined (jsGet (.obj fields) "width")) = false →
      isOfflineStatus (jsGet (.obj fields) "status") = false →
      handleJsonMessageF s (.obj fields) = (s, [])) := by
  refine ⟨?_, ?_, ?_, ?_⟩
  · intro elems b hb
    simp [handleJsonMessageF, pushEventF, hb]
  · intro fields h
    simp [handleJsonMessageF, h]
  · intro fields h hoff
    simp [handleJsonMessageF, h, hoff]
  · intro fields h hoff
    simp [handleJsonMessageF, h, hoff]

/-- C7 witness: `C7_json_dispatch` at concrete messages — an event
triple, a reset object, an offline object, and an unrecognized
object. -/
theorem C7_witness :
    handleJsonMessageF openState
        (.arr [.num (.fin 1), .str "o", .str "x"]) =
      (openState, [.bufPushE (.arr [.num (.fin 1), .str "o", .str "x"])]) ∧
    handleJsonMessageF openState (.obj [("width", .num (.fin 80)),
        ("height", .num (.fin 24))]) =
      handleResetMessageF openState (.num (.fin 80)) (.num (.fin 24))
        .undefV .undefV ∧
    handleJsonMessageF openState (.obj [("status", .str "offline")]) =
      handleOfflineMessageF openState ∧
    handleJsonMessageF openState (.obj [("hello", .str "world")]) =
      (openState, []) := by
  refine ⟨(C7_json_dispatch openState).1 _ ⟨.undefV⟩ rfl, ?_, ?_, ?_⟩
  · have h := (C7_json_dispatch openState).2.1
      [("width", .num (.fin 80)), ("height", .num (.fin 24))] (by rfl)
    exact h
  · exact (C7_json_dispatch openState).2.2.1 [("status", .str "offline")] rfl rfl
  · exact (C7_json_dispatch openState).2.2.2 [("hello", .str "world")] rfl rfl

/-- C4: ALiS binary frames decode little-endian fields at the
tabulated offsets — tag 0x01: u16 cols at 1, u16 rows at 3, f32 time
at 5, u32 initLen at 9 and initLen UTF-8 bytes from 13, init absent
when initLen is 0; tag 0x6f: f32 time at 1, u32 textLen at 5, text
from 9, pushed to the Buffer as `[time, 'o', text]`; tag 0x72: f32
time at 1, u16 cols at 5, u16 rows at 7, pushed as
`[time, 'r', '<cols>x<rows>']`; tag 0x04: offline handling; any other
tag: ignored and logged at debug level. -/
theorem C4_stream_frames (s : DriverState) (b : BufferM) (hbuf : s.buf = some b) :
    (∀ c1 c2 r1 r2 t1 t2 t3 t4 l1 l2 l3 l4 : Nat, ∀ rest : List Nat, ∀ len : Nat,
      len = l1 + 256 * l2 + 65536 * l3 + 16777216 * l4 →
      len ≤ rest.length →
      decodeStreamFrame (0x01 :: c1 :: c2 :: r1 :: r2 :: t1 :: t2 :: t3 :: t4 ::
          l1 :: l2 :: l3 :: l4 :: rest) =
        some (.resetA (c1 + 256 * c2) (r1 + 256 * r2)
          (f32FromBits (t1 + 256 * t2 + 65536 * t3 + 16777216 * t4))
          (if len = 0 then none else some (utf8Decode (rest.take len))))) ∧
    (∀ t1 t2 t3 t4 l1 l2 l3 l4 : Nat, ∀ rest : List Nat, ∀ len : Nat,
      len = l1 + 256 * l2 + 65536 * l3 + 16777216 * l4 →
      len ≤ rest.length →
      handleStreamMessageF s (0x6f :: t1 :: t2 :: t3 :: t4 ::
          l1 :: l2 :: l3 :: l4 :: rest) =
        (s, [.bufPushE (.arr
          [.num (f32FromBits (t1 + 256 * t2 + 65536 * t3 + 16777216 * t4)),
           .str "o", .str (utf8Decode (rest.take len))])])) ∧
    (∀ t1 t2 t3 t4 c1 c2 r1 r2 : Nat, ∀ rest : List Nat,
      handleStreamMessageF s (0x72 :: t1 :: t2 :: t3 :: t4 ::
          c1 :: c2 :: r1 :: r2 :: rest) =
        (s, [.bufPushE (.arr
          [.num (f32FromBits (t1 + 256 * t2 + 65536 * t3 + 16777216 * t4)),
           .str "r",
           .str (toString (c1 + 256 * c2) ++ "x" ++ toString (r1 + 256 * r2))])])) ∧
    (∀ rest : List Nat,
      handleStreamMessageF s (0x04 :: rest) = handleOfflineMessageF s) ∧
    (∀ tag : Nat, ∀ rest : List Nat,
      tag ≠ 0x01 → tag ≠ 0x6f → tag ≠ 0x72 → tag ≠ 0x04 →
      handleStreamMessageF s (tag :: rest) =
        (s, [.logE "debug" "unknown frame type"])) := by
  refine ⟨?_, ?_, ?_, ?_, ?_⟩
  · intro c1 c2 r1 r2 t1 t2 t3 t4 l1 l2 l3 l4 rest len hlen hle
    subst hlen
    by_cases h0 : l1 + 256 * l2 + 65536 * l3 + 16777216 * l4 = 0
    · simp [decodeStreamFrame, getUint8, getUint16LE, getUint32LE, getFloat32LE, h0]
    · have hpos : 0 < l1 + 256 * l2 + 65536 * l3 + 16777216 * l4 :=
        Nat.pos_of_ne_zero h0
      have hview : viewExact (0x01 :: c1 :: c2 :: r1 :: r2 :: t1 :: t2 :: t3 :: t4 ::
          l1 :: l2 :: l3 :: l4 :: rest) 13
            (l1 + 256 * l2 + 65536 * l3 + 16777216 * l4) =
          some (rest.take (l1 + 256 * l2 + 65536 * l3 + 16777216 * l4)) := by
        simp [viewExact]
        omega
      simp [decodeStreamFrame, getUint8, getUint16LE, getUint32LE, getFloat32LE,
        h0, hpos, hview]
  · intro t1 t2 t3 t4 l1 l2 l3 l4 rest len hlen hle
    subst hlen
    have hview : viewExact (0x6f :: t1 :: t2 :: t3 :: t4 ::
        l1 :: l2 :: l3 :: l4 :: rest) 9
          (l1 + 256 * l2 + 65536 * l3 + 16777216 * l4) =
        some (rest.take (l1 + 256 * l2 + 65536 * l3 + 16777216 * l4)) := by
      simp [viewExact]
      omega
    simp [handleStreamMessageF, decodeStreamFrame, getUint8, getUint32LE,
      getFloat32LE, hview, applyStreamAction, pushEventF, hbuf]
  · intro t1 t2 t3 t4 c1 c2 r1 r2 rest
    simp [handleStreamMessageF, decodeStreamFrame, getUint8, getUint16LE,
      getUint32LE, getFloat32LE, applyStreamAction, pushEventF, hbuf]
  · intro rest
    simp [handleStreamMessageF, decodeStreamFrame, getUint8, applyStreamAction]
  · intro tag rest h1 h2 h3 h4
    simp [handleStreamMessageF, decodeStreamFrame, getUint8, h1, h2, h3, h4,
      applyStreamAction]

/-- C4 witness: `C4_stream_frames` on concrete frames — an output
frame carrying "hi" at time 1.0, a resize frame 80x24 at time 0, the
offline frame, and an unknown tag. -/
theorem C4_witness :
    handleStreamMessageF openState
        [0x6f, 0, 0, 128, 63, 2, 0, 0, 0, 104, 105] =
      (openState, [.bufPushE (.arr [.num (f32FromBits 0x3f800000), .str "o",
        .str (utf8Decode [104, 105])])]) ∧
    handleStreamMessageF openState [0x72, 0, 0, 0, 0, 80, 0, 24, 0] =
      (openState, [.bufPushE (.arr [.num (f32FromBits 0), .str "r",
        .str "80x24"])]) ∧
    handleStreamMessageF openState [0x04] = handleOfflineMessageF openState ∧
    handleStreamMessageF openState [0xff] =
      (openState, [.logE "debug" "unknown frame type"]) := by
  have h := C4_stream_frames openState ⟨.undefV⟩ rfl
  refine ⟨?_, ?_, h.2.2.2.1 [], h.2.2.2.2 0xff [] (by decide) (by decide)
    (by decide) (by decide)⟩
  · have := h.2.1 0 0 128 63 2 0 0 0 [104, 105] 2 (by decide) (by decide)
    simpa using this
  · have := h.2.2.1 0 0 0 0 80 0 24 0 []
    simpa using this

/-- C10: extracting the text of a reset (0x01) or output (0x6f) frame
succeeds exactly when the declared length plus the text's start
offset fits in the frame; on overrun the main revision's
`new Uint8Array(buffer, off, len)` throws — the error branch is
reachable and no event reaches the Buffer — while the older
revision's `array.slice` clamps to the available bytes. -/
theorem C10_text_length_bound (s : DriverState) :
    (∀ t1 t2 t3 t4 l1 l2 l3 l4 : Nat, ∀ rest : List Nat, ∀ len : Nat,
      len = l1 + 256 * l2 + 65536 * l3 + 16777216 * l4 →
      (len ≤ rest.length →
        decodeStreamFrame (0x6f :: t1 :: t2 :: t3 :: t4 ::
            l1 :: l2 :: l3 :: l4 :: rest) =
          some (.outputA
            (f32FromBits (t1 + 256 * t2 + 65536 * t3 + 16777216 * t4))
            (utf8Decode (rest.take len)))) ∧
      (rest.length < len →
        decodeStreamFrame (0x6f :: t1 :: t2 :: t3 :: t4 ::
            l1 :: l2 :: l3 :: l4 :: rest) = none ∧
        handleStreamMessageF s (0x6f :: t1 :: t2 :: t3 :: t4 ::
            l1 :: l2 :: l3 :: l4 :: rest) = (s, [.jsErrorE]) ∧
        decodeStreamFrameOld (0x6f :: t1 :: t2 :: t3 :: t4 ::
            l1 :: l2 :: l3 :: l4 :: rest) =
          some (.outputA
            (f32FromBits (t1 + 256 * t2 + 65536 * t3 + 16777216 * t4))
            (utf8Decode rest)))) ∧
    (∀ c1 c2 r1 r2 t1 t2 t3 t4 l1 l2 l3 l4 : Nat, ∀ rest : List Nat, ∀ len : Nat,
      len = l1 + 256 * l2 + 65536 * l3 + 16777216 * l4 →
      rest.length < len →
      decodeStreamFrame (0x01 :: c1 :: c2 :: r1 :: r2 :: t1 :: t2 :: t3 :: t4 ::
          l1 :: l2 :: l3 :: l4 :: rest) = none ∧
      handleStreamMessageF s (0x01 :: c1 :: c2 :: r1 :: r2 :: t1 :: t2 :: t3 :: t4 ::
          l1 :: l2 :: l3 :: l4 :: rest) = (s, [.jsErrorE]) ∧
      decodeStreamFrameOld (0x01 :: c1 :: c2 :: r1 :: r2 :: t1 :: t2 :: t3 :: t4 ::
          l1 :: l2 :: l3 :: l4 :: rest) =
        some (.resetA (c1 + 256 * c2) (r1 + 256 * r2)
          (f32FromBits (t1 + 256 * t2 + 65536 * t3 + 16777216 * t4))
          (some (utf8Decode rest)))) := by
  constructor
  · intro t1 t2 t3 t4 l1 l2 l3 l4 rest len hlen
    subst hlen
    constructor
    · intro hle
      have hview : viewExact (0x6f :: t1 :: t2 :: t3 :: t4 ::
          l1 :: l2 :: l3 :: l4 :: rest) 9
            (l1 + 256 * l2 + 65536 * l3 + 16777216 * l4) =
          some (rest.take (l1 + 256 * l2 + 65536 * l3 + 16777216 * l4)) := by
        simp [viewExact]
        omega
      simp [decodeStreamFrame, getUint8, getUint32LE, getFloat32LE, hview]
    · intro hgt
      have hview : viewExact (0x6f :: t1 :: t2 :: t3 :: t4 ::
          l1 :: l2 :: l3 :: l4 :: rest) 9
            (l1 + 256 * l2 + 65536 * l3 + 16777216 * l4) = none := by
        simp [viewExact]
        omega
      have htake : rest.take (l1 + 256 * l2 + 65536 * l3 + 16777216 * l4) = rest :=
        List.take_of_length_le (le_of_lt hgt)
      refine ⟨?_, ?_, ?_⟩
      · simp [decodeStreamFrame, getUint8, getUint32LE, getFloat32LE, hview]
      · simp [handleStreamMessageF, decodeStreamFrame, getUint8, getUint32LE,
          getFloat32LE, hview, applyStreamAction]
      · simp [decodeStreamFrameOld, getUint32LE, getFloat32LE, sliceClamped, htake]
  · intro c1 c2 r1 r2 t1 t2 t3 t4 l1 l2 l3 l4 rest len hlen hgt
    subst hlen
    have hpos : 0 < l1 + 256 * l2 + 65536 * l3 + 16777216 * l4 := by omega
    have h0 : l1 + 256 * l2 + 65536 * l3 + 16777216 * l4 ≠ 0 := by omega
    have hview : viewExact (0x01 :: c1 :: c2 :: r1 :: r2 :: t1 :: t2 :: t3 :: t4 ::
        l1 :: l2 :: l3 :: l4 :: rest) 13
          (l1 + 256 * l2 + 65536 * l3 + 16777216 * l4) = none := by
      simp [viewExact]
      omega
    have htake : rest.take (l1 + 256 * l2 + 65536 * l3 + 16777216 * l4) = rest :=
      List.take_of_length_le (le_of_lt hgt)
    refine ⟨?_, ?_, ?_⟩
    · simp [decodeStreamFrame, getUint8, getUint16LE, getUint32LE, getFloat32LE,
        hpos, hview]
    · simp [handleStreamMessageF, decodeStreamFrame, getUint8, getUint16LE,
        getUint32LE, getFloat32LE, hpos, hview, applyStreamAction]
    · simp [decodeStreamFrameOld, getUint16LE, getUint32LE, getFloat32LE, h0,
        sliceClamped, htake]
      omega

/-- C10 witness: `C10_text_length_bound` on the concrete output frame
declaring 5 text bytes but carrying only the 2 bytes "hi": the main
revision throws (no event reaches the Buffer), the older revision
clamps and emits "hi". -/
theorem C10_witness :
    decodeStreamFrame [0x6f, 0, 0, 128, 63, 5, 0, 0, 0, 104, 105] = none ∧
    handleStreamMessageF openState [0x6f, 0, 0, 128, 63, 5, 0, 0, 0, 104, 105] =
      (openState, [.jsErrorE]) ∧
    decodeStreamFrameOld [0x6f, 0, 0, 128, 63, 5, 0, 0, 0, 104, 105] =
      some (.outputA (f32FromBits 0x3f800000) (utf8Decode [104, 105])) := by
  have h := ((C10_text_length_bound openState).1 0 0 128 63 5 0 0 0 [104, 105] 5
    (by decide)).2 (by decide)
  simpa using h

/-- C9: for a first binary frame not matching the "ALiS" magic, the
decoded text is scanned with the resize-escape regex, then the
script-start regex; if either matches, exactly one reset with the
sniffed `(cols, rows)`, stream time 0 and no initial content is
synthesized before the raw handler is installed; in all cases the raw
handler is then bound and this first message is pushed through it. -/
theorem C9_raw_protocol (s : DriverState) (arr : List Nat)
    (hmagic : ((arr[0]? == some 0x41) && (arr[1]? == some 0x4c) &&
      (arr[2]? == some 0x69) && (arr[3]? == some 0x53)) = false) :
    (∀ c r : Nat,
      ((sizeFromResizeSeq (utf8DecodeChars arr)).orElse
        fun _ => sizeFromScriptStartMessage (utf8DecodeChars arr)) = some (c, r) →
      detectProtocolF s (.binary arr) =
        ({ s with
            handler := .raw
            buf := some ⟨.num (.fin 0)⟩
            clock := .activeC (.fin 0) },
         [.logE "info" "activating raw text handler",
          .logE "debug" "stream reset", .setStateE "playing" none] ++
           (if s.buf.isSome then [Effect.bufStopE] else []) ++
           [.resetCbE (.num (.fin c)) (.num (.fin r)) .undefV,
            .bufPushTextE (utf8Decode arr)])) ∧
    (((sizeFromResizeSeq (utf8DecodeChars arr)).orElse
        fun _ => sizeFromScriptStartMessage (utf8DecodeChars arr)) = none →
      ∀ b : BufferM, s.buf = some b →
      detectProtocolF s (.binary arr) =
        ({ s with handler := .raw },
         [.logE "info" "activating raw text handler",
          .bufPushTextE (utf8Decode arr)])) := by
  constructor
  · intro c r hsize
    simp [detectProtocolF, hmagic, hsize, handleResetMessageF, initBufferF,
      handleRawTextMessageF, pushTextF]
  · intro hsize b hb
    simp [detectProtocolF, hmagic, hsize, handleRawTextMessageF, pushTextF, hb]

/-- C9 witness: `C9_raw_protocol` on the raw first frame
`"\x1b[8;24;80t"` (a resize escape announcing 24 rows and 80
columns), and on the raw first frame `"hello"` (no geometry). -/
theorem C9_witness :
    detectProtocolF openState (.binary [27, 91, 56, 59, 50, 52, 59, 56, 48, 116]) =
      ({ openState with
          handler := .raw
          buf := some ⟨.num (.fin 0)⟩
          clock := .activeC (.fin 0) },
       [.logE "info" "activating raw text handler",
        .logE "debug" "stream reset", .setStateE "playing" none, .bufStopE,
        .resetCbE (.num (.fin 80)) (.num (.fin 24)) .undefV,
        .bufPushTextE (utf8Decode [27, 91, 56, 59, 50, 52, 59, 56, 48, 116])]) ∧
    detectProtocolF openState (.binary [104, 101, 108, 108, 111]) =
      ({ openState with handler := .raw },
       [.logE "info" "activating raw text handler",
        .bufPushTextE (utf8Decode [104, 101, 108, 108, 111])]) := by
  constructor
  · have h := (C9_raw_protocol openState [27, 91, 56, 59, 50, 52, 59, 56, 48, 116]
      rfl).1 80 24 rfl
    simpa using h
  · exact (C9_raw_protocol openState [104, 101, 108, 108, 111] rfl).2 rfl ⟨.undefV⟩ rfl

/-- C8: `getCurrentTime()` returns an absent value whenever no Clock
is active — initially, and throughout any run in which the `reset`
callback never fires (no stream reset has occurred), in particular
after offline handling, which reports `offline` and clears the Clock;
at all other times it returns the active Clock's virtual time. -/
theorem C8_current_time_absent :
    (∀ s : DriverState, ∀ t : JsNum, s.clock = .activeC t →
      getCurrentTimeF s = some t) ∧
    (∀ s : DriverState,
      (handleOfflineMessageF s).1.clock = .nullC ∧
      getCurrentTimeF (handleOfflineMessageF s).1 = none ∧
      setStatesOf (handleOfflineMessageF s).2 = [("offline", none)]) ∧
    getCurrentTimeF initialState = none ∧
    (∀ cfg : Config, ∀ s : DriverState, ∀ inputs : List DriverInput,
      s.clock = .nullC → noResetCb (run cfg s inputs).2 = true →
      getCurrentTimeF (run cfg s inputs).1 = none) := by
  refine ⟨?_, ?_, rfl, ?_⟩
  · intro s t h
    simp [getCurrentTimeF, h, ClockM.getTime]
  · intro s
    exact ⟨rfl, rfl, rfl⟩
  · intro cfg s inputs h hno
    have hnull := run_clock_null cfg inputs s h hno
    simp [getCurrentTimeF, hnull, ClockM.getTime]

/-- C8 witness: `C8_current_time_absent` on a concrete run — play,
open, an offline binary frame, an unclean close — during which no
reset occurs, and on a concrete state with an active Clock. -/
theorem C8_witness :
    getCurrentTimeF (run defaultConfig initialState
      [.playCall, .openEvt, .message (.binary [0x04]), .closeEvt 1006]).1 =
        none ∧
    getCurrentTimeF { initialState with clock := .activeC (.fin 2) } =
      some (.fin 2) :=
  ⟨C8_current_time_absent.2.2.2 defaultConfig initialState
      [.playCall, .openEvt, .message (.binary [0x04]), .closeEvt 1006] rfl rfl,
   C8_current_time_absent.1 { initialState with clock := .activeC (.fin 2) }
      (.fin 2) rfl⟩

/-- C3 witness: `C3_amended_alis_errors` on the two concrete error
frames of `C3_counterexample`. -/
theorem C3_witness :
    detectProtocolF openState (.binary [0x41, 0x4c, 0x69, 0x53, 2]) =
      (openState, [.logE "warn" "unsupported ALiS version", .closeSocketE]) ∧
    (detectProtocolF openState (.binary [0x41, 0x4c, 0x69, 0x53, 1, 1])).1 =
      { openState with handler := .stream } :=
  ⟨(C3_amended_alis_errors openState [0x41, 0x4c, 0x69, 0x53, 2]
      rfl rfl rfl rfl).1 (by decide),
   ((C3_amended_alis_errors openState [0x41, 0x4c, 0x69, 0x53, 1, 1]
      rfl rfl rfl rfl).2 rfl (by decide)).2⟩

end WsDriver
